import Mathlib

/-!
Shallow embedding of the Cinder-AvfImpl wrapper (src/include/Avf.h) —
the MovieLoader ownership protocol, the MovieResponder forwarding shim,
the MovieBase playback state machine and its frame-delivery flag, the
MovieSurface no-op visual context, and the Avf exception hierarchy —
together with theorems settling the specification claims about them.

Native Objective-C object pointers are modelled as natural-number
addresses with 0 as the null pointer; C++ `float` arithmetic is modelled
over `ℚ`, with division by zero modelled as undefined (`none`).
-/

namespace Avf

/-- Native object pointers (AVPlayer*, AVPlayerItemOutput*, ...) modelled as
machine addresses; address 0 is the null pointer. -/
abbrev Ptr := Nat

/-- The null pointer (`0` in the C++ source). -/
def nullPtr : Ptr := 0

/-! ### MovieLoader (src/include/Avf.h, lines 289-331)

Fields of `class MovieLoader`: the native player handle `mPlayer`, the
source `mUrl`, and the `mutable` status flags declared on line 330. -/

structure MovieLoaderState where
  mPlayer : Ptr
  mUrl : String
  mLoaded : Bool
  mBufferFull : Bool
  mBufferEmpty : Bool
  mPlayable : Bool
  mProtected : Bool
  mPlayThroughOK : Bool
  mOwnsMovie : Bool
deriving DecidableEq, Repr

/-- Source: `bool ownsMovie() const { return mOwnsMovie; }` (line 314). -/
def MovieLoaderState.ownsMovie (s : MovieLoaderState) : Bool := s.mOwnsMovie

/-- Source: `const AVPlayer* getMovieHandle() const { return mPlayer; }` (line 320). -/
def MovieLoaderState.getMovieHandle (s : MovieLoaderState) : Ptr := s.mPlayer

/-- Source: `AVPlayer* transferMovieHandle() const { mOwnsMovie = false; return mPlayer; }`
(line 323): a const method mutating the `mutable` ownership flag, modelled as a
state transformer returning the pointer and the post-state. -/
def MovieLoaderState.transferMovieHandle (s : MovieLoaderState) : Ptr × MovieLoaderState :=
  (s.mPlayer, { s with mOwnsMovie := false })

/-! ### The Avf exception hierarchy (src/include/Avf.h, lines 335-351) -/

/-- The classes taking part in the wrapper's exception hierarchy, plus the
standard-library root `std::exception`. -/
inductive CppClass where
  | stdException
  | avfExc
  | avfPathInvalidExc
  | avfFileInvalidExc
  | avfUrlInvalidExc
  | avfErrorLoadingExc
  | avfTextureErrorExc
deriving DecidableEq, Fintype, Repr

/-- The direct base class of each class, exactly as declared in the header:
`class AvfExc : public std::exception {}` and
`class AvfXxxExc : public AvfExc {}` for the five leaf exceptions. -/
def directBase : CppClass → Option CppClass
  | .stdException => none
  | .avfExc => some .stdException
  | .avfPathInvalidExc => some .avfExc
  | .avfFileInvalidExc => some .avfExc
  | .avfUrlInvalidExc => some .avfExc
  | .avfErrorLoadingExc => some .avfExc
  | .avfTextureErrorExc => some .avfExc

/-- Chase base-class declarations, with fuel bounding the chain length. -/
def ancestorsAux : Nat → CppClass → List CppClass
  | 0, _ => []
  | Nat.succ n, c =>
    match directBase c with
    | none => []
    | some b => b :: ancestorsAux n b

/-- All (strict) ancestor classes of a class. Seven classes exist, so fuel 7
suffices for any base chain. -/
def ancestors (c : CppClass) : List CppClass := ancestorsAux 7 c

/-- Predicate: `derivesFrom c d` holds when a `c` object is catchable as a `d`
(reflexive-transitive closure of the base-class relation). -/
def derivesFrom (c d : CppClass) : Bool := c == d || (ancestors c).contains d

/-- The exception types the wrapper throws, per the header (lines 338-351). -/
def avfErrorSurface : List CppClass :=
  [.avfPathInvalidExc, .avfFileInvalidExc, .avfUrlInvalidExc,
   .avfErrorLoadingExc, .avfTextureErrorExc]

/-! ### MovieResponder (src/include/Avf.h, lines 272-286)

The responder's sole field is `MovieBase* const mParent`; a possibly null
parent pointer is modelled as `Option Ptr`.  Each callback body is a single
unguarded dereference-and-call `mParent->handler(...)`: its semantics is the
trace of internal-handler calls made on the parent object, and `none` when the
parent pointer is null (undefined behaviour: null dereference). -/

/-- The MovieBase internal handlers reachable from MovieResponder
(lines 188-192 and 153 of the header). -/
inductive MovieCall where
  | playerReady
  | playerItemEnded
  | playerItemCancelled
  | playerItemJumped
  | outputWasFlushed (output : Ptr)
  | updateFrame
deriving DecidableEq, Repr

structure MovieResponder where
  mParent : Option Ptr
deriving DecidableEq, Repr

/-- Source: `MovieResponder(MovieBase* parent = 0) : mParent(parent) {}` with an
explicit parent argument. -/
def MovieResponder.mkWith (parent : Option Ptr) : MovieResponder := ⟨parent⟩

/-- Source: `MovieResponder(MovieBase* parent = 0)` called with the default argument:
the parent is the null pointer. -/
def MovieResponder.mkDefault : MovieResponder := ⟨none⟩

/-- Source: `void playerReadyCallback() { mParent->playerReady(); }` (line 277). -/
def MovieResponder.playerReadyCallback (r : MovieResponder) : Option (List (Ptr × MovieCall)) :=
  r.mParent.map fun p => [(p, MovieCall.playerReady)]

/-- Source: `void playerItemDidReachEndCallback() { mParent->playerItemEnded(); }` (line 278). -/
def MovieResponder.playerItemDidReachEndCallback (r : MovieResponder) :
    Option (List (Ptr × MovieCall)) :=
  r.mParent.map fun p => [(p, MovieCall.playerItemEnded)]

/-- Source: `void playerItemDidNotReachEndCallback() { mParent->playerItemCancelled(); }` (line 279). -/
def MovieResponder.playerItemDidNotReachEndCallback (r : MovieResponder) :
    Option (List (Ptr × MovieCall)) :=
  r.mParent.map fun p => [(p, MovieCall.playerItemCancelled)]

/-- Source: `void playerItemTimeJumpedCallback() { mParent->playerItemJumped(); }` (line 280). -/
def MovieResponder.playerItemTimeJumpedCallback (r : MovieResponder) :
    Option (List (Ptr × MovieCall)) :=
  r.mParent.map fun p => [(p, MovieCall.playerItemJumped)]

/-- Source: `void outputSequenceWasFlushedCallback(AVPlayerItemOutput* output)` whose
body is `mParent->outputWasFlushed(output);` (line 281). -/
def MovieResponder.outputSequenceWasFlushedCallback (r : MovieResponder) (output : Ptr) :
    Option (List (Ptr × MovieCall)) :=
  r.mParent.map fun p => [(p, MovieCall.outputWasFlushed output)]

/-- Source: `void playerUpdateFrame() { mParent->updateFrame(); }` (line 282). -/
def MovieResponder.playerUpdateFrame (r : MovieResponder) : Option (List (Ptr × MovieCall)) :=
  r.mParent.map fun p => [(p, MovieCall.updateFrame)]

/-! ### MovieBase (src/include/Avf.h, lines 51-197)

The fields `mWidth` through `mPlayer` are the data members declared on lines
169-178 of the header.  The remaining fields model state the header keeps
inside the native objects: the player's playback rate and volume, the
playback-head position, and the mutex-guarded has-new-frame flag consulted by
`checkNewFrame` (the spec: frame buffer state is updated only under the
movie's mutex). -/

structure MovieBaseState where
  mWidth : Int
  mHeight : Int
  mFrameCount : Int
  mFrameRate : ℚ
  mDuration : ℚ
  mLoaded : Bool
  mPlayThroughOk : Bool
  mPlayable : Bool
  mProtected : Bool
  mPlayingForward : Bool
  mLoop : Bool
  mPalindrome : Bool
  mHasAudio : Bool
  mHasVideo : Bool
  mPlaying : Bool
  mPlayer : Ptr
  mCanPlayReverse : Bool
  mRate : ℚ
  mVolume : ℚ
  mCurrentTime : ℚ
  mHasNewFrame : Bool
deriving DecidableEq, Repr

/-- Source: `int32_t getWidth() const { return mWidth; }` (line 56). -/
def MovieBaseState.getWidth (s : MovieBaseState) : Int := s.mWidth

/-- Source: `int32_t getHeight() const { return mHeight; }` (line 58). -/
def MovieBaseState.getHeight (s : MovieBaseState) : Int := s.mHeight

/-- Source: `bool isLoaded() const { return mLoaded; }` (line 72). -/
def MovieBaseState.isLoaded (s : MovieBaseState) : Bool := s.mLoaded

/-- Model of C++ float division over `ℚ`: division by zero is undefined
(`none`), every other quotient is exact. -/
def fdiv (a b : ℚ) : Option ℚ := if b = 0 then none else some (a / b)

/-- Source: `float getAspectRatio() const` whose body returns
`static_cast<float>(mWidth) / static_cast<float>(mHeight)` (line 62) — an
unguarded division by the stored height. -/
def MovieBaseState.getAspectRatio (s : MovieBaseState) : Option ℚ :=
  fdiv (s.mWidth : ℚ) (s.mHeight : ℚ)

/-- Source: `AVPlayer* getPlayerHandle() const { return mPlayer; }` (line 136). -/
def MovieBaseState.getPlayerHandle (s : MovieBaseState) : Ptr := s.mPlayer

/-- The `getPlayerHandle()` const method viewed as a call on the object: it
returns the stored pointer together with the (unchanged) object state. -/
def MovieBaseState.getPlayerHandleCall (s : MovieBaseState) : Ptr × MovieBaseState :=
  (s.mPlayer, s)

/-- Modelled from the spec: the body of the `MovieBase` default constructor is
only declared in the header (line 146).  Per the spec, dimensions and metadata
are populated only when the native ready notification fires, and no native
player handle exists before initialization, so the fresh object carries zero
dimensions, cleared flags and the null player handle. -/
def MovieBaseState.initial : MovieBaseState where
  mWidth := 0
  mHeight := 0
  mFrameCount := 0
  mFrameRate := 0
  mDuration := 0
  mLoaded := false
  mPlayThroughOk := false
  mPlayable := false
  mProtected := false
  mPlayingForward := true
  mLoop := false
  mPalindrome := false
  mHasAudio := false
  mHasVideo := false
  mPlaying := false
  mPlayer := nullPtr
  mCanPlayReverse := false
  mRate := 0
  mVolume := 1
  mCurrentTime := 0
  mHasNewFrame := false

/-- Modelled from the spec: the native framework's `AVPlayer` allocation,
which never yields a null object pointer for a successful initialization
(spec invariant: "a movie has a native player handle once initialized"). -/
def allocPlayer (seed : Nat) : Ptr := seed + 1

/-- Modelled from the spec: `MovieBase::initFromUrl` (declared line 148) —
initialization from a URL allocates the native player for the source. -/
def MovieBaseState.initFromUrl (_url : String) (seed : Nat) : MovieBaseState :=
  { MovieBaseState.initial with mPlayer := allocPlayer seed }

/-- Modelled from the spec: `MovieBase::initFromPath` (declared line 149) —
initialization from a file path allocates the native player for the source. -/
def MovieBaseState.initFromPath (_filePath : String) (seed : Nat) : MovieBaseState :=
  { MovieBaseState.initial with mPlayer := allocPlayer seed }

/-- Modelled from the spec: `MovieBase::initFromLoader` (declared line 150) —
the loader transfers ownership of its already-allocated player handle to the
movie. -/
def MovieBaseState.initFromLoader (loader : MovieLoaderState) : MovieBaseState :=
  { MovieBaseState.initial with mPlayer := loader.transferMovieHandle.1 }

/-- Modelled from the spec: `checkNewFrame` (declared line 92) is
"non-blocking — true if a frame has arrived since the last consumption,
consulted under the movie's mutex". -/
def MovieBaseState.checkNewFrame (s : MovieBaseState) : Bool := s.mHasNewFrame

/-- Modelled from the spec: `updateFrame` (declared line 153) "is the only
path that installs a new current frame"; installing one raises the
has-new-frame flag. -/
def MovieBaseState.updateFrame (s : MovieBaseState) : MovieBaseState :=
  { s with mHasNewFrame := true }

/-- Modelled from the spec: consuming the current frame via
`getSurface()`/`getTexture()` clears the has-new-frame flag, so
`checkNewFrame` "returns false immediately after the frame has been
consumed". -/
def MovieBaseState.consumeFrame (s : MovieBaseState) : MovieBaseState :=
  { s with mHasNewFrame := false }

/-- Modelled from the spec: `bool setRate(float rate)` (declared line 120)
"requests continuous playback at the given signed rate; returns false if the
asset cannot be played at that rate (e.g., some assets disallow reverse)";
nonzero rates begin playback immediately and 0 stops. -/
def MovieBaseState.setRate (s : MovieBaseState) (rate : ℚ) : Bool × MovieBaseState :=
  (decide (0 ≤ rate) || s.mCanPlayReverse,
   { s with mRate := rate, mPlaying := decide (rate ≠ 0) })

/-- Modelled from the spec: `void stop()` (declared line 133) halts playback;
on AVFoundation stopping a player sets its rate to 0. -/
def MovieBaseState.stop (s : MovieBaseState) : MovieBaseState :=
  { s with mRate := 0, mPlaying := false }

/-- Modelled from the spec: `void play(bool toggle)` (declared line 131)
begins playback, i.e. sets the player rate to normal speed 1. -/
def MovieBaseState.play (s : MovieBaseState) : MovieBaseState :=
  { s with mRate := 1, mPlaying := true }

/-- Modelled from the spec: `bool isPlaying() const` (declared line 127)
"Returns whether the movie is currently playing or is paused/stopped" — on
AVFoundation a player is playing exactly when its rate is nonzero. -/
def MovieBaseState.isPlaying (s : MovieBaseState) : Bool := decide (s.mRate ≠ 0)

/-- Modelled from the spec: `void seekToTime(float seconds)` (declared
line 97) repositions the playback head within the movie's duration. -/
def MovieBaseState.seekToTime (s : MovieBaseState) (seconds : ℚ) : MovieBaseState :=
  { s with mCurrentTime := max 0 (min seconds s.mDuration) }

/-- Modelled from the spec: `void setLoop(bool loop, bool palindrome)`
(declared line 110) records the looping mode flags. -/
def MovieBaseState.setLoop (s : MovieBaseState) (loop palindrome : Bool) : MovieBaseState :=
  { s with mLoop := loop, mPalindrome := palindrome }

/-- Modelled from the spec: `void setVolume(float volume)` (declared
line 123) clamps the volume to the range from 0 to 1 and stores it. -/
def MovieBaseState.setVolume (s : MovieBaseState) (volume : ℚ) : MovieBaseState :=
  { s with mVolume := max 0 (min 1 volume) }

/-- The operations a consumer or the native callback thread can perform on an
initialized movie, as modelled above. -/
inductive MovieOp where
  | opSetRate (rate : ℚ)
  | opStop
  | opPlay
  | opSeekToTime (seconds : ℚ)
  | opSetLoop (loop palindrome : Bool)
  | opSetVolume (volume : ℚ)
  | opUpdateFrame
  | opConsumeFrame
deriving DecidableEq, Repr

/-- One step of the movie state machine.  Frame delivery (`opUpdateFrame`)
installs a new frame only while the movie is playing: per the spec, stopping
means "no further new-frame notifications fire until rate is set non-zero
again". -/
def stepMovie (s : MovieBaseState) : MovieOp → MovieBaseState
  | .opSetRate rate => (s.setRate rate).2
  | .opStop => s.stop
  | .opPlay => s.play
  | .opSeekToTime seconds => s.seekToTime seconds
  | .opSetLoop loop palindrome => s.setLoop loop palindrome
  | .opSetVolume volume => s.setVolume volume
  | .opUpdateFrame => if s.isPlaying then s.updateFrame else s
  | .opConsumeFrame => s.consumeFrame

/-- Run a sequence of operations on a movie. -/
def runMovie (s : MovieBaseState) (ops : List MovieOp) : MovieBaseState :=
  ops.foldl stepMovie s

/-- Whether performing `op` in state `s` fires the new-frame notification:
only a frame delivery while the movie is playing does. -/
def firesNewFrame (s : MovieBaseState) : MovieOp → Bool
  | .opUpdateFrame => s.isPlaying
  | _ => false

/-- Whether any operation of the sequence fires the new-frame notification. -/
def anyNewFrameFired (s : MovieBaseState) : List MovieOp → Bool
  | [] => false
  | op :: rest => firesNewFrame s op || anyNewFrameFired (stepMovie s op) rest

/-- Whether an operation sets a nonzero playback rate (directly or via
`play()`), ending the stopped regime. -/
def activatesPlayback : MovieOp → Bool
  | .opSetRate rate => decide (rate ≠ 0)
  | .opPlay => true
  | _ => false

/-! ### The frame-delivery flag in isolation (claim about `checkNewFrame`)

A trace of frame deliveries (executions of `updateFrame` that install a
frame) and consumptions (`getSurface()`/`getTexture()`), applied to a movie
state. -/

inductive FrameEvent where
  | deliver
  | consume
deriving DecidableEq, Repr

/-- Apply one delivery/consumption event to the movie. -/
def applyFrameEvent (s : MovieBaseState) : FrameEvent → MovieBaseState
  | .deliver => s.updateFrame
  | .consume => s.consumeFrame

/-- Apply a whole trace of delivery/consumption events. -/
def runFrameEvents (s : MovieBaseState) (evs : List FrameEvent) : MovieBaseState :=
  evs.foldl applyFrameEvent s

/-! ### MovieSurface (src/include/Avf.h, lines 199-226) -/

/-- State of a `MovieSurface`: the inherited `MovieBase` state plus the
`Surface mSurface` member (line 225), modelled as an opaque handle to the
most recently converted pixel surface (`none` before any frame arrived). -/
structure MovieSurfaceState where
  base : MovieBaseState
  mSurface : Option Ptr
deriving DecidableEq, Repr

/-- Source: `virtual void allocateVisualContext() { /* no-op */ }` (line 220):
the body is empty, so the state is returned untouched. -/
def MovieSurfaceState.allocateVisualContext (s : MovieSurfaceState) : MovieSurfaceState := s

/-- Source: `virtual void deallocateVisualContext() { /* no-op */ }` (line 221):
the body is empty, so the state is returned untouched. -/
def MovieSurfaceState.deallocateVisualContext (s : MovieSurfaceState) : MovieSurfaceState := s

/-! ## Theorems settling the claims -/

/-- C1: for every MovieLoader, after `transferMovieHandle()` the loader's
`ownsMovie()` returns false and the returned pointer is the loader's player
handle (the pointer `getMovieHandle()` returns, both before and after the
call); a second call to `transferMovieHandle()` is an idempotent no-op,
returning the same pointer and leaving the state — ownership flag included —
exactly as it was; and the first call changes nothing but the ownership
flag. -/
theorem transferMovieHandle_transfers_ownership (s : MovieLoaderState) :
    s.transferMovieHandle.2.ownsMovie = false ∧
    s.transferMovieHandle.1 = s.transferMovieHandle.2.getMovieHandle ∧
    s.transferMovieHandle.1 = s.getMovieHandle ∧
    s.transferMovieHandle.2.transferMovieHandle =
      (s.transferMovieHandle.1, s.transferMovieHandle.2) ∧
    s.transferMovieHandle.2 = { s with mOwnsMovie := false } :=
  ⟨rfl, rfl, rfl, rfl, rfl⟩

/-- C6: the wrapper's error surface is exactly the five exception types
AvfPathInvalidExc, AvfFileInvalidExc, AvfUrlInvalidExc, AvfErrorLoadingExc
and AvfTextureErrorExc; each derives from the common base AvfExc, AvfExc
derives from std::exception, and hence every one of the five is catchable
both as AvfExc and as std::exception. -/
theorem avf_exception_hierarchy :
    (avfErrorSurface.all fun c =>
      derivesFrom c CppClass.avfExc && derivesFrom c CppClass.stdException) = true ∧
    derivesFrom CppClass.avfExc CppClass.stdException = true ∧
    (∀ c : CppClass,
      (derivesFrom c CppClass.avfExc && !(c == CppClass.avfExc)) = true ↔
        c ∈ avfErrorSurface) := by
  refine ⟨by decide, by decide, ?_⟩
  intro c
  cases c <;> simp [derivesFrom, ancestors, ancestorsAux, directBase, avfErrorSurface]

/-- C7: `getPlayerHandle()` is a pure read-only accessor — it returns the
stored native player pointer and leaves every field of the movie unchanged,
so repeated calls return the same pointer. -/
theorem getPlayerHandle_readonly (s : MovieBaseState) :
    s.getPlayerHandleCall = (s.mPlayer, s) ∧
    s.getPlayerHandleCall.2.getPlayerHandleCall.1 = s.getPlayerHandleCall.1 ∧
    s.getPlayerHandleCall.1 = s.getPlayerHandle :=
  ⟨rfl, rfl, rfl⟩

/-- C8: `MovieSurface::allocateVisualContext` and
`MovieSurface::deallocateVisualContext` are no-ops: in any state, calling
either leaves every field of the object unchanged. -/
theorem visualContext_noops (s : MovieSurfaceState) :
    s.allocateVisualContext = s ∧ s.deallocateVisualContext = s :=
  ⟨rfl, rfl⟩

/-- C2: every MovieResponder callback forwards to exactly the corresponding
MovieBase internal handler of its parent and does nothing else — the call
trace is the single corresponding handler call on the parent object, with the
output argument passed through unchanged — and the responder holds no state
beyond the const parent pointer: two responders with the same parent are
equal. -/
theorem movieResponder_forwards_exactly (r : MovieResponder) (p : Ptr)
    (h : r.mParent = some p) :
    r.playerReadyCallback = some [(p, MovieCall.playerReady)] ∧
    r.playerItemDidReachEndCallback = some [(p, MovieCall.playerItemEnded)] ∧
    r.playerItemDidNotReachEndCallback = some [(p, MovieCall.playerItemCancelled)] ∧
    r.playerItemTimeJumpedCallback = some [(p, MovieCall.playerItemJumped)] ∧
    (∀ output : Ptr, r.outputSequenceWasFlushedCallback output =
      some [(p, MovieCall.outputWasFlushed output)]) ∧
    r.playerUpdateFrame = some [(p, MovieCall.updateFrame)] ∧
    (∀ r2 : MovieResponder, r2.mParent = r.mParent → r2 = r) := by
  refine ⟨?_, ?_, ?_, ?_, fun output => ?_, ?_, ?_⟩
  · simp [MovieResponder.playerReadyCallback, h]
  · simp [MovieResponder.playerItemDidReachEndCallback, h]
  · simp [MovieResponder.playerItemDidNotReachEndCallback, h]
  · simp [MovieResponder.playerItemTimeJumpedCallback, h]
  · simp [MovieResponder.outputSequenceWasFlushedCallback, h]
  · simp [MovieResponder.playerUpdateFrame, h]
  · intro r2 h2
    cases r2
    cases r
    simp_all

/-- Witness for C2 at a concrete responder whose parent lives at address 5. -/
theorem movieResponder_forwards_exactly_w :
    (MovieResponder.mkWith (some 5)).playerUpdateFrame =
      some [(5, MovieCall.updateFrame)] ∧
    (MovieResponder.mkWith (some 5)).outputSequenceWasFlushedCallback 9 =
      some [(5, MovieCall.outputWasFlushed 9)] :=
  ⟨(movieResponder_forwards_exactly (MovieResponder.mkWith (some 5)) 5 rfl).2.2.2.2.2.1,
   (movieResponder_forwards_exactly (MovieResponder.mkWith (some 5)) 5 rfl).2.2.2.2.1 9⟩

/-- C9: every MovieResponder callback unconditionally dereferences the stored
parent pointer — a callback succeeds exactly when the parent pointer is
non-null — and the constructor's default argument leaves the parent null, so
on a default-constructed responder every callback dereferences the null
pointer (modelled as `none`). -/
theorem movieResponder_null_parent_deref :
    (MovieResponder.mkDefault.mParent = none ∧
     MovieResponder.mkDefault.playerReadyCallback = none ∧
     MovieResponder.mkDefault.playerItemDidReachEndCallback = none ∧
     MovieResponder.mkDefault.playerItemDidNotReachEndCallback = none ∧
     MovieResponder.mkDefault.playerItemTimeJumpedCallback = none ∧
     (∀ output : Ptr, MovieResponder.mkDefault.outputSequenceWasFlushedCallback output = none) ∧
     MovieResponder.mkDefault.playerUpdateFrame = none) ∧
    (∀ r : MovieResponder,
      (r.playerReadyCallback ≠ none ↔ r.mParent ≠ none) ∧
      (r.playerItemDidReachEndCallback ≠ none ↔ r.mParent ≠ none) ∧
      (r.playerItemDidNotReachEndCallback ≠ none ↔ r.mParent ≠ none) ∧
      (r.playerItemTimeJumpedCallback ≠ none ↔ r.mParent ≠ none) ∧
      (∀ output : Ptr, r.outputSequenceWasFlushedCallback output ≠ none ↔ r.mParent ≠ none) ∧
      (r.playerUpdateFrame ≠ none ↔ r.mParent ≠ none)) := by
  constructor
  · exact ⟨rfl, rfl, rfl, rfl, rfl, fun _ => rfl, rfl⟩
  · intro r
    cases r with
    | mk parent =>
      cases parent <;>
        simp [MovieResponder.playerReadyCallback,
          MovieResponder.playerItemDidReachEndCallback,
          MovieResponder.playerItemDidNotReachEndCallback,
          MovieResponder.playerItemTimeJumpedCallback,
          MovieResponder.outputSequenceWasFlushedCallback,
          MovieResponder.playerUpdateFrame]

/-- C10: `getAspectRatio` divides the stored width by the stored height with
no guard: whenever the height is nonzero the quotient is returned, whenever
the height is zero the division is undefined — in particular on a freshly
constructed movie, whose dimensions are not yet populated. -/
theorem getAspectRatio_requires_nonzero_height :
    (∀ s : MovieBaseState, s.mHeight ≠ 0 →
       MovieBaseState.getAspectRatio s = some ((s.mWidth : ℚ) / (s.mHeight : ℚ))) ∧
    (∀ s : MovieBaseState, s.mHeight = 0 →
       MovieBaseState.getAspectRatio s = none) ∧
    MovieBaseState.getAspectRatio MovieBaseState.initial = none := by
  refine ⟨?_, ?_, ?_⟩
  · intro s h
    have h2 : (s.mHeight : ℚ) ≠ 0 := Int.cast_ne_zero.mpr h
    simp [MovieBaseState.getAspectRatio, fdiv, h2]
  · intro s h
    simp [MovieBaseState.getAspectRatio, fdiv, h]
  · simp [MovieBaseState.getAspectRatio, MovieBaseState.initial, fdiv]

/-- Witness for C10 at a movie with width 4 and height 2. -/
theorem getAspectRatio_requires_nonzero_height_w :
    MovieBaseState.getAspectRatio
        { MovieBaseState.initial with mWidth := 4, mHeight := 2 } =
      some (((4 : Int) : ℚ) / ((2 : Int) : ℚ)) :=
  getAspectRatio_requires_nonzero_height.1
    { MovieBaseState.initial with mWidth := 4, mHeight := 2 } (by decide)

/-- A movie that is not playing stays not playing, and fires no new-frame
notification, under any sequence of operations that never sets a nonzero
playback rate. -/
lemma stopped_stays_stopped :
    ∀ (ops : List MovieOp) (s : MovieBaseState), s.isPlaying = false →
      (∀ op ∈ ops, activatesPlayback op = false) →
      anyNewFrameFired s ops = false ∧ (runMovie s ops).isPlaying = false
  | [], _, hs, _ => ⟨rfl, hs⟩
  | op :: rest, s, hs, hops => by
    have hop : activatesPlayback op = false := hops op (List.mem_cons_self op rest)
    have hstep : (stepMovie s op).isPlaying = false := by
      cases op with
      | opSetRate rate =>
        simp only [activatesPlayback, decide_eq_false_iff_not, not_not] at hop
        simp [stepMovie, MovieBaseState.setRate, MovieBaseState.isPlaying, hop]
      | opStop => simp [stepMovie, MovieBaseState.stop, MovieBaseState.isPlaying]
      | opPlay => simp [activatesPlayback] at hop
      | opSeekToTime seconds =>
        simpa [stepMovie, MovieBaseState.seekToTime, MovieBaseState.isPlaying]
          using hs
      | opSetLoop loop palindrome =>
        simpa [stepMovie, MovieBaseState.setLoop, MovieBaseState.isPlaying] using hs
      | opSetVolume volume =>
        simpa [stepMovie, MovieBaseState.setVolume, MovieBaseState.isPlaying] using hs
      | opUpdateFrame => simp [stepMovie, hs]
      | opConsumeFrame =>
        simpa [stepMovie, MovieBaseState.consumeFrame, MovieBaseState.isPlaying] using hs
    have hfires : firesNewFrame s op = false := by
      cases op <;> simp [firesNewFrame, hs]
    have hrest : ∀ op2 ∈ rest, activatesPlayback op2 = false :=
      fun op2 hm => hops op2 (List.mem_cons_of_mem op hm)
    obtain ⟨h1, h2⟩ := stopped_stays_stopped rest (stepMovie s op) hstep hrest
    refine ⟨?_, ?_⟩
    · simp [anyNewFrameFired, hfires, h1]
    · simpa [runMovie] using h2

/-- C4: calling `setRate(0)` leaves the movie in the same state as calling
`stop()`; afterwards `isPlaying()` is false, and as long as no subsequent
operation sets a nonzero rate (directly or via `play()`) the movie stays
non-playing and no new-frame notification fires. -/
theorem setRate_zero_equals_stop (s : MovieBaseState) :
    (s.setRate 0).2 = s.stop ∧
    (s.setRate 0).2.isPlaying = false ∧
    (∀ ops : List MovieOp, (∀ op ∈ ops, activatesPlayback op = false) →
      anyNewFrameFired (s.setRate 0).2 ops = false ∧
      (runMovie (s.setRate 0).2 ops).isPlaying = false) := by
  have hp : (s.setRate 0).2.isPlaying = false := by
    simp [MovieBaseState.setRate, MovieBaseState.isPlaying]
  refine ⟨?_, hp, fun ops hops => stopped_stays_stopped ops _ hp hops⟩
  simp [MovieBaseState.setRate, MovieBaseState.stop]

/-- Witness for C4: on a fresh movie, after `setRate(0)` a stop and a frame
poll fire no new-frame notification. -/
theorem setRate_zero_equals_stop_w :
    anyNewFrameFired ((MovieBaseState.initial.setRate 0).2)
        [MovieOp.opStop, MovieOp.opUpdateFrame] = false :=
  ((setRate_zero_equals_stop MovieBaseState.initial).2.2
    [MovieOp.opStop, MovieOp.opUpdateFrame] (by decide)).1

/-- No operation of the movie state machine writes the native player
pointer. -/
lemma stepMovie_preserves_player (s : MovieBaseState) (op : MovieOp) :
    (stepMovie s op).mPlayer = s.mPlayer := by
  cases op with
  | opSetRate rate => rfl
  | opStop => rfl
  | opPlay => rfl
  | opSeekToTime seconds => rfl
  | opSetLoop loop palindrome => rfl
  | opSetVolume volume => rfl
  | opUpdateFrame =>
    simp only [stepMovie]
    split <;> rfl
  | opConsumeFrame => rfl

/-- No sequence of operations writes the native player pointer. -/
lemma runMovie_preserves_player (ops : List MovieOp) :
    ∀ s : MovieBaseState, (runMovie s ops).mPlayer = s.mPlayer := by
  induction ops with
  | nil => intro s; rfl
  | cons op rest ih =>
    intro s
    calc (runMovie s (op :: rest)).mPlayer
        = (runMovie (stepMovie s op) rest).mPlayer := rfl
      _ = (stepMovie s op).mPlayer := ih (stepMovie s op)
      _ = s.mPlayer := stepMovie_preserves_player s op

/-- C5: once a movie is initialized — from a URL, a path, or a loader holding
a non-null player handle — its native player handle is non-null, and every
subsequent operation preserves this: `getPlayerHandle()` returns a non-null
pointer for the object's whole lifetime. -/
theorem playerHandle_nonnull_invariant :
    (∀ (url : String) (seed : Nat) (ops : List MovieOp),
       (runMovie (MovieBaseState.initFromUrl url seed) ops).getPlayerHandle ≠ nullPtr) ∧
    (∀ (filePath : String) (seed : Nat) (ops : List MovieOp),
       (runMovie (MovieBaseState.initFromPath filePath seed) ops).getPlayerHandle ≠ nullPtr) ∧
    (∀ (loader : MovieLoaderState) (ops : List MovieOp),
       loader.getMovieHandle ≠ nullPtr →
       (runMovie (MovieBaseState.initFromLoader loader) ops).getPlayerHandle ≠ nullPtr) := by
  refine ⟨?_, ?_, ?_⟩
  · intro url seed ops
    simp [MovieBaseState.getPlayerHandle, runMovie_preserves_player,
      MovieBaseState.initFromUrl, allocPlayer, nullPtr]
  · intro filePath seed ops
    simp [MovieBaseState.getPlayerHandle, runMovie_preserves_player,
      MovieBaseState.initFromPath, allocPlayer, nullPtr]
  · intro loader ops h
    simpa [MovieBaseState.getPlayerHandle, runMovie_preserves_player,
      MovieBaseState.initFromLoader, MovieLoaderState.transferMovieHandle,
      MovieLoaderState.getMovieHandle] using h

/-- Witness for C5 at a loader holding the player at address 7. -/
theorem playerHandle_nonnull_invariant_w :
    (runMovie
        (MovieBaseState.initFromLoader
          { mPlayer := 7, mUrl := "file:///a.mov", mLoaded := true,
            mBufferFull := false, mBufferEmpty := false, mPlayable := true,
            mProtected := false, mPlayThroughOK := true, mOwnsMovie := true })
        [MovieOp.opPlay, MovieOp.opUpdateFrame]).getPlayerHandle ≠ nullPtr :=
  playerHandle_nonnull_invariant.2.2
    { mPlayer := 7, mUrl := "file:///a.mov", mLoaded := true,
      mBufferFull := false, mBufferEmpty := false, mPlayable := true,
      mProtected := false, mPlayThroughOK := true, mOwnsMovie := true }
    [MovieOp.opPlay, MovieOp.opUpdateFrame] (by decide)

/-- Running a concatenated trace of frame events runs the two pieces in
order. -/
lemma runFrameEvents_append (s : MovieBaseState) (l1 l2 : List FrameEvent) :
    runFrameEvents s (l1 ++ l2) = runFrameEvents (runFrameEvents s l1) l2 := by
  simp [runFrameEvents, List.foldl_append]

/-- As long as no frame is delivered, a cleared has-new-frame flag stays
cleared. -/
lemma no_deliver_keeps_false :
    ∀ (v : List FrameEvent) (s : MovieBaseState), FrameEvent.deliver ∉ v →
      s.checkNewFrame = false → (runFrameEvents s v).checkNewFrame = false
  | [], _, _, hs => hs
  | e :: rest, s, hv, hs => by
    cases e with
    | deliver => exact absurd (List.mem_cons_self _ rest) hv
    | consume =>
      exact no_deliver_keeps_false rest (s.consumeFrame)
        (fun hm => hv (List.mem_cons_of_mem _ hm)) rfl

/-- A trace ending in a consumption admits no decomposition whose suffix
after some delivery is consumption-free. -/
lemma concat_consume_no_decomp :
    ∀ (l u v : List FrameEvent),
      l ++ [FrameEvent.consume] = u ++ FrameEvent.deliver :: v →
      FrameEvent.consume ∈ v := by
  intro l u
  induction u generalizing l with
  | nil =>
    intro v hv
    cases l with
    | nil => simp at hv
    | cons a l1 =>
      have hv2 : a = FrameEvent.deliver ∧ l1 ++ [FrameEvent.consume] = v := by
        simpa using hv
      rw [← hv2.2]
      exact List.mem_append_right l1 (List.mem_singleton.mpr rfl)
  | cons b u1 ih =>
    intro v hv
    cases l with
    | nil => simp at hv
    | cons a l1 =>
      have hv2 : a = b ∧ l1 ++ [FrameEvent.consume] = u1 ++ FrameEvent.deliver :: v := by
        simpa using hv
      exact ih l1 v hv2.2

/-- Starting from a movie with no pending frame, the has-new-frame flag is
raised exactly when the event trace contains a delivery after its last
consumption. -/
lemma checkNewFrame_characterization (s : MovieBaseState)
    (h : s.checkNewFrame = false) (evs : List FrameEvent) :
    (runFrameEvents s evs).checkNewFrame = true ↔
      ∃ u v, evs = u ++ FrameEvent.deliver :: v ∧ FrameEvent.consume ∉ v := by
  induction evs using List.reverseRecOn with
  | nil =>
    apply iff_of_false
    · simp [runFrameEvents, h]
    · rintro ⟨u, v, hv, -⟩
      have hlen := congrArg List.length hv
      simp only [List.length_nil, List.length_append, List.length_cons] at hlen
      omega
  | append_singleton l e _ =>
    cases e with
    | deliver =>
      apply iff_of_true
      · rw [runFrameEvents_append]; rfl
      · exact ⟨l, [], rfl, by simp⟩
    | consume =>
      have hF : (runFrameEvents s (l ++ [FrameEvent.consume])).checkNewFrame = false := by
        rw [runFrameEvents_append]; rfl
      apply iff_of_false
      · simp [hF]
      · rintro ⟨u, v, hv, hnc⟩
        exact hnc (concat_consume_no_decomp l u v hv)

/-- C3: starting from a movie with no pending frame, `checkNewFrame()`
returns true exactly when a frame has been delivered since the last
consumption — in particular it is true once a frame arrives, and false
immediately after the frame is consumed via `getSurface()`/`getTexture()`,
staying false until the next frame arrives. -/
theorem checkNewFrame_once_per_frame (s : MovieBaseState)
    (h : s.checkNewFrame = false) :
    (∀ evs : List FrameEvent,
       ((runFrameEvents s evs).checkNewFrame = true ↔
         ∃ u v, evs = u ++ FrameEvent.deliver :: v ∧ FrameEvent.consume ∉ v)) ∧
    (∀ u : List FrameEvent,
       (runFrameEvents s (u ++ [FrameEvent.deliver])).checkNewFrame = true) ∧
    (∀ u v : List FrameEvent, FrameEvent.deliver ∉ v →
       (runFrameEvents s (u ++ FrameEvent.consume :: v)).checkNewFrame = false) := by
  refine ⟨checkNewFrame_characterization s h, ?_, ?_⟩
  · intro u
    rw [runFrameEvents_append]
    rfl
  · intro u v hv
    rw [show u ++ FrameEvent.consume :: v = (u ++ [FrameEvent.consume]) ++ v by simp,
      runFrameEvents_append]
    refine no_deliver_keeps_false v _ hv ?_
    rw [runFrameEvents_append]
    rfl

/-- Witness for C3: on a fresh movie, one delivery makes `checkNewFrame` true
and a following consumption makes it false. -/
theorem checkNewFrame_once_per_frame_w :
    (runFrameEvents MovieBaseState.initial [FrameEvent.deliver]).checkNewFrame = true ∧
    (runFrameEvents MovieBaseState.initial
        [FrameEvent.deliver, FrameEvent.consume]).checkNewFrame = false :=
  ⟨((checkNewFrame_once_per_frame MovieBaseState.initial rfl).1
      [FrameEvent.deliver]).mpr ⟨[], [], rfl, by simp⟩,
   (checkNewFrame_once_per_frame MovieBaseState.initial rfl).2.2
      [FrameEvent.deliver] [] (by simp)⟩

end Avf
